import Mathlib

/-!
Shallow embedding of `raiden/transfer/mediated_transfer/initiator_manager.py`:
the initiator-side payment orchestrator of a hashed-timelock payment-channel
network.

Modelling conventions:
* Python dicts are association lists `List (Nat × α)` with unique keys;
  insertion order is preserved, as Python guarantees.  `d.get(k)` is `dictGet`,
  `d[k] = v` is `dictSet`, and the raising `d[k]` is `dictGetD` in
  `Except RaidenError`.
* The source iterates `list(d.keys())` while deleting at most the key under
  iteration; with unique keys this is exactly entry-by-entry structural
  recursion, which is how the two loops (`subdispatch_to_all_initiatortransfer`
  and `handle_cancelpayment`) are rendered.
* `assert` and raising lookups are modelled as `Except.error`.
* The external collaborators — the `channel` module and the per-route
  `initiator` sub-machine — are records of functions (`ChannelModule`,
  `InitiatorModule`); theorems quantify over every implementation of their
  interfaces.
* Where the source mutates an object in place and the sub-machine returns that
  same object, the functional rendering keeps the sub-machine's returned state
  (the spec's sanctioned reading of the aliasing).
-/

namespace Raiden

/-- A hash-time lock as the orchestrator compares it:
`(amount, expiration, secrethash)`. -/
structure HashTimeLockState where
  amount : Nat
  expiration : Nat
  secrethash : Nat
deriving DecidableEq

/-- The slice of a locked transfer the orchestrator reads:
`payment_identifier` and `lock`. -/
structure LockedTransferState where
  payment_identifier : Nat
  lock : HashTimeLockState
deriving DecidableEq

/-- Modelled from the spec: `TransferDescriptionWithSecretState`
(`raiden/transfer/mediated_transfer/state.py` is not under `src/`); fields per
spec section 3.1, with `secrethash = H(secret)`. -/
structure TransferDescriptionWithSecretState where
  payment_network_identifier : Nat
  payment_identifier : Nat
  amount : Nat
  token_network_identifier : Nat
  initiator : Nat
  target : Nat
  secret : Nat
  secrethash : Nat
deriving DecidableEq

/-- Modelled from the spec: the positional constructor
`TransferDescriptionWithSecretState(...)` as invoked at
`initiator_manager.py:277-285`, computing `secrethash = H(secret)` (spec
section 3.1). -/
def mkTransferDescription (H : Nat → Nat)
    (payment_network_identifier payment_identifier amount token_network_identifier
      initiator target secret : Nat) : TransferDescriptionWithSecretState :=
  ⟨payment_network_identifier, payment_identifier, amount, token_network_identifier,
    initiator, target, secret, H secret⟩

/-- `InitiatorTransferState`: one route attempt.  `revealsecret` is the
received secret reveal (only its presence is inspected here). -/
structure InitiatorTransferState where
  transfer_description : TransferDescriptionWithSecretState
  channel_identifier : Nat
  transfer : LockedTransferState
  revealsecret : Option Nat
deriving DecidableEq

/-- `InitiatorPaymentState`: mapping secrethash → attempt, plus the channels
already tried and abandoned. -/
structure InitiatorPaymentState where
  initiator_transfers : List (Nat × InitiatorTransferState)
  cancelled_channels : List Nat
deriving DecidableEq

/-- The slice of a `NettingChannelState` the orchestrator reads; the partner
state is abstract and only handed to `channel.get_lock`. -/
structure NettingChannelState where
  payment_network_identifier : Nat
  token_network_identifier : Nat
  partner_state : Nat
deriving DecidableEq

/-- `ChannelMap`: mapping channel identifier → channel state. -/
abbrev ChannelMap := List (Nat × NettingChannelState)

/-- Effects returned by the orchestrator; effects produced by the external
collaborators are represented by the abstract `OtherEvent`. -/
inductive RaidenEvent where
  | EventUnlockFailed (identifier : Nat) (secrethash : Nat) (reason : String)
  | EventUnlockClaimFailed (identifier : Nat) (secrethash : Nat) (reason : String)
  | EventPaymentSentFailed (payment_network_identifier : Nat)
      (token_network_identifier : Nat) (identifier : Nat) (target : Nat)
      (reason : String)
  | OtherEvent (tag : Nat)
deriving DecidableEq

/-- `TransitionResult` of the orchestrator. -/
structure TransitionResult where
  new_state : Option InitiatorPaymentState
  events : List RaidenEvent
deriving DecidableEq

/-- `TransitionResult` of the per-route sub-machine. -/
structure SubTransitionResult where
  new_state : Option InitiatorTransferState
  events : List RaidenEvent
deriving DecidableEq

/-- `TransitionResult` of `channel.handle_receive_lock_expired`: the new
channel state is always present (its `partner_state` is read unconditionally
at `initiator_manager.py:336`). -/
structure ChannelExpiredResult where
  new_state : NettingChannelState
  events : List RaidenEvent
deriving DecidableEq

/-- `ActionInitInitiator` state change. -/
structure ActionInitInitiator where
  transfer : TransferDescriptionWithSecretState
  routes : List Nat
deriving DecidableEq

/-- `ReceiveSecretRequest` state change (only `secrethash` is read here). -/
structure ReceiveSecretRequest where
  secrethash : Nat
deriving DecidableEq

/-- `ReceiveTransferRefundCancelRoute` state change. -/
structure ReceiveTransferRefundCancelRoute where
  transfer : LockedTransferState
  routes : List Nat
  secret : Nat
deriving DecidableEq

/-- `ReceiveLockExpired` state change (only `secrethash` is read here). -/
structure ReceiveLockExpired where
  secrethash : Nat
deriving DecidableEq

/-- The closed event surface dispatched on by `state_transition`; payloads the
orchestrator never inspects are abstract. -/
inductive StateChange where
  | Block (block_number : Nat)
  | ActionInitInitiator (d : ActionInitInitiator)
  | ReceiveSecretRequest (d : ReceiveSecretRequest)
  | ReceiveTransferRefundCancelRoute (d : ReceiveTransferRefundCancelRoute)
  | ActionCancelPayment
  | ReceiveSecretReveal (payload : Nat)
  | ReceiveLockExpired (d : ReceiveLockExpired)
  | ContractReceiveSecretReveal (payload : Nat)
  | OtherStateChange (tag : Nat)
deriving DecidableEq

/-- The ways the Python source can raise. -/
inductive RaidenError where
  | keyError (key : Nat)
  | assertionError (message : String)
  | absentStateError
deriving DecidableEq

/-- Python `d.get(k)`. -/
def dictGet {α : Type} (m : List (Nat × α)) (k : Nat) : Option α :=
  match m with
  | [] => none
  | (k', v) :: rest => if k' = k then some v else dictGet rest k

/-- Python `d[k] = v`: overwrite in place if the key exists, else append. -/
def dictSet {α : Type} (m : List (Nat × α)) (k : Nat) (v : α) : List (Nat × α) :=
  match m with
  | [] => [(k, v)]
  | (k', v') :: rest => if k' = k then (k, v) :: rest else (k', v') :: dictSet rest k v

/-- Python raising lookup `d[k]`. -/
def dictGetD (m : ChannelMap) (k : Nat) : Except RaidenError NettingChannelState :=
  match dictGet m k with
  | some v => Except.ok v
  | none => Except.error (RaidenError.keyError k)

/-- Interface of the external `channel` collaborator (spec section 6.1). -/
structure ChannelModule where
  refund_transfer_matches_received :
    LockedTransferState → LockedTransferState → Bool
  handle_receive_refundtransfercancelroute :
    NettingChannelState → LockedTransferState →
      Bool × List RaidenEvent × NettingChannelState
  handle_receive_lock_expired :
    NettingChannelState → ReceiveLockExpired → Nat → ChannelExpiredResult
  get_lock : Nat → Nat → Option HashTimeLockState

/-- Interface of the external per-route `initiator` sub-machine
(spec section 4.2). -/
structure InitiatorModule where
  try_new_route :
    Option InitiatorTransferState → ChannelMap → List Nat →
      TransferDescriptionWithSecretState → Nat → Nat → SubTransitionResult
  state_transition :
    InitiatorTransferState → StateChange → NettingChannelState → Nat → Nat →
      SubTransitionResult

/-- `clear_if_finalized` (`initiator_manager.py:25-36`): retire the payment
when no transfers remain. -/
def clear_if_finalized (iteration : TransitionResult) : TransitionResult :=
  match iteration.new_state with
  | none => iteration
  | some state =>
    if state.initiator_transfers.length = 0 then
      TransitionResult.mk none iteration.events
    else
      iteration

/-- `can_cancel` (`initiator_manager.py:39-44`): a transfer is only
cancellable until the secret is revealed. -/
def can_cancel (initiatorState : Option InitiatorTransferState) : Bool :=
  match initiatorState with
  | none => true
  | some s => s.revealsecret.isNone

/-- `events_for_cancel_current_route` (`initiator_manager.py:47-53`). -/
def events_for_cancel_current_route
    (transfer_description : TransferDescriptionWithSecretState) : List RaidenEvent :=
  [RaidenEvent.EventUnlockFailed transfer_description.payment_identifier
    transfer_description.secrethash "route was canceled"]

/-- `cancel_current_route` (`initiator_manager.py:56-70`): append the channel
to `cancelled_channels`; the `assert can_cancel` is the `assertionError`
branch. -/
def cancel_current_route (payment_state : InitiatorPaymentState)
    (initiator_state : InitiatorTransferState) :
    Except RaidenError (InitiatorPaymentState × List RaidenEvent) :=
  if can_cancel (some initiator_state) then
    Except.ok
      (InitiatorPaymentState.mk payment_state.initiator_transfers
        (payment_state.cancelled_channels ++ [initiator_state.channel_identifier]),
       events_for_cancel_current_route initiator_state.transfer_description)
  else
    Except.error (RaidenError.assertionError
      "Cannot cancel a route after the secret is revealed")

/-- `maybe_try_new_route` (`initiator_manager.py:73-104`): cancel the current
route if it still can be cancelled and ask the sub-machine for a new one; the
source's `assert sub_iteration.new_state` is the `assertionError` branch. -/
def maybe_try_new_route (I : InitiatorModule)
    (payment_state : InitiatorPaymentState)
    (initiator_state : InitiatorTransferState)
    (transfer_description : TransferDescriptionWithSecretState)
    (available_routes : List Nat)
    (channelidentifiers_to_channels : ChannelMap)
    (pseudo_random_generator : Nat) (block_number : Nat) :
    Except RaidenError TransitionResult :=
  if can_cancel (some initiator_state) then
    match cancel_current_route payment_state initiator_state with
    | Except.error e => Except.error e
    | Except.ok (ps1, cancel_events) =>
      let sub_iteration := I.try_new_route (some initiator_state)
        channelidentifiers_to_channels available_routes transfer_description
        pseudo_random_generator block_number
      match sub_iteration.new_state with
      | none => Except.error (RaidenError.assertionError "sub_iteration.new_state")
      | some new_initiator_state =>
        let new_transfer := new_initiator_state.transfer
        Except.ok (TransitionResult.mk
          (some (InitiatorPaymentState.mk
            (dictSet ps1.initiator_transfers new_transfer.lock.secrethash
              new_initiator_state)
            ps1.cancelled_channels))
          (cancel_events ++ sub_iteration.events))
  else
    Except.ok (TransitionResult.mk (some payment_state) [])

/-- `subdispatch_to_initiatortransfer` (`initiator_manager.py:107-125`); the
raising lookup `channelidentifiers_to_channels[channel_identifier]` is
`dictGetD` (the source's `if not channel_state` guard is unreachable once the
lookup has succeeded, a channel state object being always truthy). -/
def subdispatch_to_initiatortransfer (I : InitiatorModule)
    (initiator_state : InitiatorTransferState) (state_change : StateChange)
    (channelidentifiers_to_channels : ChannelMap)
    (pseudo_random_generator : Nat) (block_number : Nat) :
    Except RaidenError SubTransitionResult :=
  match dictGetD channelidentifiers_to_channels initiator_state.channel_identifier with
  | Except.error e => Except.error e
  | Except.ok channel_state =>
    Except.ok (I.state_transition initiator_state state_change channel_state
      pseudo_random_generator block_number)

/-- The loop of `subdispatch_to_all_initiatortransfer`
(`initiator_manager.py:136-152`), entry by entry: a missing channel skips the
entry; a sub-transition returning absent state deletes the entry; otherwise
the returned attempt is kept (in the source the same object was mutated in
place).  Returns the surviving entries and the concatenated events. -/
def subdispatchAll (I : InitiatorModule) (state_change : StateChange)
    (channelidentifiers_to_channels : ChannelMap)
    (pseudo_random_generator : Nat) (block_number : Nat) :
    List (Nat × InitiatorTransferState) →
      List (Nat × InitiatorTransferState) × List RaidenEvent
  | [] => ([], [])
  | (secrethash, initiator_state) :: rest =>
    match dictGet channelidentifiers_to_channels initiator_state.channel_identifier with
    | none =>
      let r := subdispatchAll I state_change channelidentifiers_to_channels
        pseudo_random_generator block_number rest
      ((secrethash, initiator_state) :: r.1, r.2)
    | some channel_state =>
      let sub_iteration := I.state_transition initiator_state state_change
        channel_state pseudo_random_generator block_number
      let r := subdispatchAll I state_change channelidentifiers_to_channels
        pseudo_random_generator block_number rest
      match sub_iteration.new_state with
      | none => (r.1, sub_iteration.events ++ r.2)
      | some new_st => ((secrethash, new_st) :: r.1, sub_iteration.events ++ r.2)

/-- `subdispatch_to_all_initiatortransfer` (`initiator_manager.py:128-153`). -/
def subdispatch_to_all_initiatortransfer (I : InitiatorModule)
    (payment_state : InitiatorPaymentState) (state_change : StateChange)
    (channelidentifiers_to_channels : ChannelMap)
    (pseudo_random_generator : Nat) (block_number : Nat) : TransitionResult :=
  let r := subdispatchAll I state_change channelidentifiers_to_channels
    pseudo_random_generator block_number payment_state.initiator_transfers
  TransitionResult.mk
    (some (InitiatorPaymentState.mk r.1 payment_state.cancelled_channels)) r.2

/-- `handle_block` (`initiator_manager.py:156-169`). -/
def handle_block (I : InitiatorModule) (payment_state : InitiatorPaymentState)
    (state_change : StateChange) (channelidentifiers_to_channels : ChannelMap)
    (pseudo_random_generator : Nat) (block_number : Nat) : TransitionResult :=
  subdispatch_to_all_initiatortransfer I payment_state state_change
    channelidentifiers_to_channels pseudo_random_generator block_number

/-- `handle_init` (`initiator_manager.py:172-201`); a fresh
`InitiatorPaymentState` starts with empty `cancelled_channels` (spec
section 3.1, the state class not being under `src/`). -/
def handle_init (I : InitiatorModule)
    (payment_state : Option InitiatorPaymentState) (state_change : ActionInitInitiator)
    (channelidentifiers_to_channels : ChannelMap)
    (pseudo_random_generator : Nat) (block_number : Nat) : TransitionResult :=
  match payment_state with
  | none =>
    let sub_iteration := I.try_new_route none channelidentifiers_to_channels
      state_change.routes state_change.transfer pseudo_random_generator block_number
    match sub_iteration.new_state with
    | some new_st =>
      TransitionResult.mk
        (some (InitiatorPaymentState.mk
          [(new_st.transfer.lock.secrethash, new_st)] []))
        sub_iteration.events
    | none => TransitionResult.mk none sub_iteration.events
  | some ps => TransitionResult.mk (some ps) []

/-- The loop of `handle_cancelpayment` (`initiator_manager.py:211-230`), entry
by entry.  The raising channel lookup happens before the `can_cancel` test,
exactly as in the source; a cancellable attempt contributes its
`events_for_cancel_current_route` (via `cancel_current_route`, whose assertion
holds here) followed by the `EventPaymentSentFailed`, is dropped from the
mapping, and its channel identifier is recorded (in source order) for
`cancelled_channels`. -/
def cancelLoop (channelidentifiers_to_channels : ChannelMap) :
    List (Nat × InitiatorTransferState) →
      Except RaidenError
        (List (Nat × InitiatorTransferState) × List Nat × List RaidenEvent)
  | [] => Except.ok ([], [], [])
  | (secrethash, initiator_state) :: rest =>
    match dictGetD channelidentifiers_to_channels initiator_state.channel_identifier with
    | Except.error e => Except.error e
    | Except.ok channel_state =>
      if can_cancel (some initiator_state) then
        let transfer_description := initiator_state.transfer_description
        let cancel_events := events_for_cancel_current_route transfer_description
        let cancel := RaidenEvent.EventPaymentSentFailed
          channel_state.payment_network_identifier
          channel_state.token_network_identifier
          transfer_description.payment_identifier
          transfer_description.target
          "user canceled payment"
        match cancelLoop channelidentifiers_to_channels rest with
        | Except.error e => Except.error e
        | Except.ok r =>
          Except.ok (r.1, initiator_state.channel_identifier :: r.2.1,
            (cancel_events ++ [cancel]) ++ r.2.2)
      else
        match cancelLoop channelidentifiers_to_channels rest with
        | Except.error e => Except.error e
        | Except.ok r =>
          Except.ok ((secrethash, initiator_state) :: r.1, r.2.1, r.2.2)

/-- `handle_cancelpayment` (`initiator_manager.py:204-232`). -/
def handle_cancelpayment (payment_state : InitiatorPaymentState)
    (channelidentifiers_to_channels : ChannelMap) :
    Except RaidenError TransitionResult :=
  match cancelLoop channelidentifiers_to_channels payment_state.initiator_transfers with
  | Except.error e => Except.error e
  | Except.ok r =>
    Except.ok (TransitionResult.mk
      (some (InitiatorPaymentState.mk r.1
        (payment_state.cancelled_channels ++ r.2.1)))
      r.2.2)

/-- `handle_transferrefundcancelroute` (`initiator_manager.py:235-301`).  On
channel rejection the source returns `TransitionResult(payment_state, list())`
— a fresh empty list, dropping `channel_events`.  On acceptance the final
state is the one produced by `maybe_try_new_route` (the same object the source
mutated in place). -/
def handle_transferrefundcancelroute (Ch : ChannelModule) (I : InitiatorModule)
    (H : Nat → Nat) (payment_state : InitiatorPaymentState)
    (state_change : ReceiveTransferRefundCancelRoute)
    (channelidentifiers_to_channels : ChannelMap)
    (pseudo_random_generator : Nat) (block_number : Nat) :
    Except RaidenError TransitionResult :=
  match dictGet payment_state.initiator_transfers state_change.transfer.lock.secrethash with
  | none => Except.ok (TransitionResult.mk (some payment_state) [])
  | some initiator_state =>
    match dictGetD channelidentifiers_to_channels initiator_state.channel_identifier with
    | Except.error e => Except.error e
    | Except.ok channel_state =>
      let refund_transfer := state_change.transfer
      let original_transfer := initiator_state.transfer
      let is_valid_lock :=
        (refund_transfer.lock.secrethash == original_transfer.lock.secrethash) &&
        (refund_transfer.lock.amount == original_transfer.lock.amount) &&
        (refund_transfer.lock.expiration == original_transfer.lock.expiration)
      let is_valid_refund :=
        Ch.refund_transfer_matches_received refund_transfer original_transfer
      if !is_valid_lock || !is_valid_refund then
        Except.ok (TransitionResult.mk (some payment_state) [])
      else
        let res := Ch.handle_receive_refundtransfercancelroute channel_state
          refund_transfer
        let channel_events := res.2.1
        if !res.1 then
          Except.ok (TransitionResult.mk (some payment_state) [])
        else
          let old_description := initiator_state.transfer_description
          let transfer_description := mkTransferDescription H
            old_description.payment_network_identifier
            old_description.payment_identifier
            old_description.amount
            old_description.token_network_identifier
            old_description.initiator
            old_description.target
            state_change.secret
          match maybe_try_new_route I payment_state initiator_state
            transfer_description state_change.routes
            channelidentifiers_to_channels pseudo_random_generator block_number with
          | Except.error e => Except.error e
          | Except.ok sub_iteration =>
            Except.ok (TransitionResult.mk sub_iteration.new_state
              (channel_events ++ sub_iteration.events))

/-- `handle_lock_expired` (`initiator_manager.py:304-345`). -/
def handle_lock_expired (Ch : ChannelModule)
    (payment_state : InitiatorPaymentState) (state_change : ReceiveLockExpired)
    (channelidentifiers_to_channels : ChannelMap) (block_number : Nat) :
    Except RaidenError TransitionResult :=
  match dictGet payment_state.initiator_transfers state_change.secrethash with
  | none => Except.ok (TransitionResult.mk (some payment_state) [])
  | some initiator_state =>
    match dictGetD channelidentifiers_to_channels initiator_state.channel_identifier with
    | Except.error e => Except.error e
    | Except.ok channel_state =>
      let secrethash := initiator_state.transfer.lock.secrethash
      let result := Ch.handle_receive_lock_expired channel_state state_change
        block_number
      match Ch.get_lock result.new_state.partner_state secrethash with
      | none =>
        let transfer := initiator_state.transfer
        let unlock_failed := RaidenEvent.EventUnlockClaimFailed
          transfer.payment_identifier transfer.lock.secrethash "Lock expired"
        Except.ok (TransitionResult.mk (some payment_state)
          (result.events ++ [unlock_failed]))
      | some _ =>
        Except.ok (TransitionResult.mk (some payment_state) result.events)

/-- `handle_offchain_secretreveal` (`initiator_manager.py:348-361`). -/
def handle_offchain_secretreveal (I : InitiatorModule)
    (payment_state : InitiatorPaymentState) (state_change : StateChange)
    (channelidentifiers_to_channels : ChannelMap)
    (pseudo_random_generator : Nat) (block_number : Nat) : TransitionResult :=
  subdispatch_to_all_initiatortransfer I payment_state state_change
    channelidentifiers_to_channels pseudo_random_generator block_number

/-- `handle_onchain_secretreveal` (`initiator_manager.py:364-377`). -/
def handle_onchain_secretreveal (I : InitiatorModule)
    (payment_state : InitiatorPaymentState) (state_change : StateChange)
    (channelidentifiers_to_channels : ChannelMap)
    (pseudo_random_generator : Nat) (block_number : Nat) : TransitionResult :=
  subdispatch_to_all_initiatortransfer I payment_state state_change
    channelidentifiers_to_channels pseudo_random_generator block_number

/-- `handle_secretrequest` (`initiator_manager.py:380-400`): the payment state
is returned with the same key set; the sub-machine's returned attempt replaces
the entry when present (the source mutated the same object in place), and the
entry is retained even when the sub-transition returns absent state — this
handler never deletes. -/
def handle_secretrequest (I : InitiatorModule)
    (payment_state : InitiatorPaymentState) (state_change : ReceiveSecretRequest)
    (channelidentifiers_to_channels : ChannelMap)
    (pseudo_random_generator : Nat) (block_number : Nat) :
    Except RaidenError TransitionResult :=
  match dictGet payment_state.initiator_transfers state_change.secrethash with
  | none => Except.ok (TransitionResult.mk (some payment_state) [])
  | some initiator_state =>
    match subdispatch_to_initiatortransfer I initiator_state
      (StateChange.ReceiveSecretRequest state_change)
      channelidentifiers_to_channels pseudo_random_generator block_number with
    | Except.error e => Except.error e
    | Except.ok sub_iteration =>
      let ps' :=
        match sub_iteration.new_state with
        | some new_st =>
          InitiatorPaymentState.mk
            (dictSet payment_state.initiator_transfers state_change.secrethash new_st)
            payment_state.cancelled_channels
        | none => payment_state
      Except.ok (TransitionResult.mk (some ps') sub_iteration.events)

/-- The dispatch chain of `state_transition` (`initiator_manager.py:410-473`)
before the finalization pass.  Handlers that dereference an absent payment
state raise `AttributeError` in Python, modelled by `absentStateError`. -/
def state_transition_unfinalized (Ch : ChannelModule) (I : InitiatorModule)
    (H : Nat → Nat) (payment_state : Option InitiatorPaymentState)
    (state_change : StateChange)
    (channelidentifiers_to_channels : ChannelMap)
    (pseudo_random_generator : Nat) (block_number : Nat) :
    Except RaidenError TransitionResult :=
  match state_change with
  | StateChange.Block _ =>
    match payment_state with
    | some ps => Except.ok (handle_block I ps state_change
        channelidentifiers_to_channels pseudo_random_generator block_number)
    | none => Except.error RaidenError.absentStateError
  | StateChange.ActionInitInitiator d =>
    Except.ok (handle_init I payment_state d channelidentifiers_to_channels
      pseudo_random_generator block_number)
  | StateChange.ReceiveSecretRequest d =>
    match payment_state with
    | some ps => handle_secretrequest I ps d channelidentifiers_to_channels
        pseudo_random_generator block_number
    | none => Except.error RaidenError.absentStateError
  | StateChange.ReceiveTransferRefundCancelRoute d =>
    match payment_state with
    | some ps => handle_transferrefundcancelroute Ch I H ps d
        channelidentifiers_to_channels pseudo_random_generator block_number
    | none => Except.error RaidenError.absentStateError
  | StateChange.ActionCancelPayment =>
    match payment_state with
    | some ps => handle_cancelpayment ps channelidentifiers_to_channels
    | none => Except.error RaidenError.absentStateError
  | StateChange.ReceiveSecretReveal _ =>
    match payment_state with
    | some ps => Except.ok (handle_offchain_secretreveal I ps state_change
        channelidentifiers_to_channels pseudo_random_generator block_number)
    | none => Except.error RaidenError.absentStateError
  | StateChange.ReceiveLockExpired d =>
    match payment_state with
    | some ps => handle_lock_expired Ch ps d channelidentifiers_to_channels
        block_number
    | none => Except.error RaidenError.absentStateError
  | StateChange.ContractReceiveSecretReveal _ =>
    match payment_state with
    | some ps => Except.ok (handle_onchain_secretreveal I ps state_change
        channelidentifiers_to_channels pseudo_random_generator block_number)
    | none => Except.error RaidenError.absentStateError
  | StateChange.OtherStateChange _ =>
    Except.ok (TransitionResult.mk payment_state [])

/-- `state_transition` (`initiator_manager.py:403-475`): dispatch, then
`clear_if_finalized`. -/
def state_transition (Ch : ChannelModule) (I : InitiatorModule) (H : Nat → Nat)
    (payment_state : Option InitiatorPaymentState) (state_change : StateChange)
    (channelidentifiers_to_channels : ChannelMap)
    (pseudo_random_generator : Nat) (block_number : Nat) :
    Except RaidenError TransitionResult :=
  Except.map clear_if_finalized
    (state_transition_unfinalized Ch I H payment_state state_change
      channelidentifiers_to_channels pseudo_random_generator block_number)

/-! ### Helper lemmas -/

/-- A successful `dictGet` means the dict is non-empty. -/
theorem dictGet_some_ne_nil {α : Type} {l : List (Nat × α)} {k : Nat} {v : α}
    (h : dictGet l k = some v) : l ≠ [] := by
  intro he
  subst he
  simp [dictGet] at h

/-- `dictSet` on a key already present leaves the key list unchanged. -/
theorem dictSet_map_fst {α : Type} (l : List (Nat × α)) (k : Nat) (v w : α)
    (h : dictGet l k = some v) :
    (dictSet l k w).map Prod.fst = l.map Prod.fst := by
  induction l with
  | nil => simp [dictGet] at h
  | cons head rest ih =>
    obtain ⟨k', v'⟩ := head
    by_cases hk : k' = k
    · subst hk
      simp [dictSet]
    · simp [dictGet, hk] at h
      simp [dictSet, hk, ih h]

/-- `subdispatchAll` processes entries independently, so it distributes over
append. -/
theorem subdispatchAll_append (I : InitiatorModule) (sc : StateChange)
    (m : ChannelMap) (prng bn : Nat)
    (l₁ l₂ : List (Nat × InitiatorTransferState)) :
    subdispatchAll I sc m prng bn (l₁ ++ l₂) =
      ((subdispatchAll I sc m prng bn l₁).1 ++ (subdispatchAll I sc m prng bn l₂).1,
       (subdispatchAll I sc m prng bn l₁).2 ++ (subdispatchAll I sc m prng bn l₂).2) := by
  induction l₁ with
  | nil => simp [subdispatchAll]
  | cons head tail ih =>
    obtain ⟨k, st⟩ := head
    simp only [List.cons_append, subdispatchAll]
    cases hch : dictGet m st.channel_identifier with
    | none => simp [ih]
    | some cs =>
      cases hsub : (I.state_transition st sc cs prng bn).new_state with
      | none => simp [hsub, ih]
      | some new_st => simp [hsub, ih]

/-- `clear_if_finalized` never returns a present state with an empty mapping. -/
theorem clear_if_finalized_invariant (it : TransitionResult) :
    ∀ ps, (clear_if_finalized it).new_state = some ps →
      ps.initiator_transfers ≠ [] := by
  obtain ⟨ns, evs⟩ := it
  intro ps hps
  cases ns with
  | none => simp [clear_if_finalized] at hps
  | some s =>
    by_cases hlen : s.initiator_transfers.length = 0
    · simp [clear_if_finalized, hlen] at hps
    · simp [clear_if_finalized, hlen] at hps
      subst hps
      exact fun he => hlen (by simp [he])

/-- `clear_if_finalized` is the identity whenever the state is absent or the
mapping is non-empty. -/
theorem clear_if_finalized_fixed (it : TransitionResult)
    (h : ∀ ps, it.new_state = some ps → ps.initiator_transfers ≠ []) :
    clear_if_finalized it = it := by
  obtain ⟨ns, evs⟩ := it
  cases ns with
  | none => rfl
  | some s =>
    have hne := h s rfl
    have hlen : ¬s.initiator_transfers.length = 0 :=
      fun hl => hne (List.length_eq_zero.mp hl)
    simp [clear_if_finalized, hlen]

/-! ### Concrete fixtures used by witnesses and counterexamples -/

/-- A lock of amount 10, expiration 50, secrethash 7. -/
def lockA : HashTimeLockState := ⟨10, 50, 7⟩

/-- A locked transfer with payment identifier 1 behind `lockA`. -/
def transferA : LockedTransferState := ⟨1, lockA⟩

/-- Description of the payment behind `transferA` (secret 5, secrethash 7). -/
def descA : TransferDescriptionWithSecretState := ⟨100, 1, 10, 200, 11, 22, 5, 7⟩

/-- A cancellable attempt (no reveal yet) on channel 1. -/
def stA : InitiatorTransferState := ⟨descA, 1, transferA, none⟩

/-- A lock of amount 20, expiration 60, secrethash 8. -/
def lockB : HashTimeLockState := ⟨20, 60, 8⟩

/-- A locked transfer with payment identifier 2 behind `lockB`. -/
def transferB : LockedTransferState := ⟨2, lockB⟩

/-- Description of the payment behind `transferB` (secret 6, secrethash 8). -/
def descB : TransferDescriptionWithSecretState := ⟨100, 2, 20, 200, 11, 22, 6, 8⟩

/-- A post-reveal attempt (revealsecret present) on channel 2. -/
def stB : InitiatorTransferState := ⟨descB, 2, transferB, some 6⟩

/-- An attempt whose channel 99 is absent from every fixture channel map. -/
def stOrphan : InitiatorTransferState := ⟨descA, 99, transferA, none⟩

/-- Channel state for channel 1. -/
def csA : NettingChannelState := ⟨100, 200, 77⟩

/-- Channel state for channel 2. -/
def csB : NettingChannelState := ⟨100, 200, 88⟩

/-- Channel map holding channels 1 and 2. -/
def mapAB : ChannelMap := [(1, csA), (2, csB)]

/-- A channel collaborator that accepts everything and emits nothing. -/
def trivialChannel : ChannelModule :=
  ⟨fun _ _ => true, fun cs _ => (true, [], cs), fun cs _ _ => ⟨cs, []⟩,
   fun _ _ => none⟩

/-- A sub-machine that never finds a route and never changes an attempt. -/
def trivialSub : InitiatorModule :=
  ⟨fun _ _ _ _ _ _ => ⟨none, []⟩, fun st _ _ _ _ => ⟨some st, []⟩⟩

/-- A sub-machine whose per-attempt transition terminates the attempt. -/
def subToNone : InitiatorModule :=
  ⟨fun _ _ _ _ _ _ => ⟨none, []⟩,
   fun _ _ _ _ _ => ⟨none, [RaidenEvent.OtherEvent 3]⟩⟩

/-- A channel collaborator whose lock-expiry handler emits one event and whose
partner lock table ends up empty. -/
def chanLockGone : ChannelModule :=
  ⟨fun _ _ => true, fun cs _ => (true, [], cs),
   fun cs _ _ => ⟨cs, [RaidenEvent.OtherEvent 4]⟩, fun _ _ => none⟩

/-- A channel collaborator that passes structural validation but rejects the
refund while emitting an event of its own. -/
def chanReject : ChannelModule :=
  ⟨fun _ _ => true, fun cs _ => (false, [RaidenEvent.OtherEvent 7], cs),
   fun cs _ _ => ⟨cs, []⟩, fun _ _ => none⟩

/-- A channel collaborator that accepts the refund and emits one event. -/
def chanAcceptEv : ChannelModule :=
  ⟨fun _ _ => true, fun cs _ => (true, [RaidenEvent.OtherEvent 5], cs),
   fun cs _ _ => ⟨cs, []⟩, fun _ _ => none⟩

/-- A sub-machine that always finds a new route on channel 2 for the given
description. -/
def subNewRoute : InitiatorModule :=
  ⟨fun _ _ _ td _ _ =>
    ⟨some ⟨td, 2, ⟨td.payment_identifier, ⟨td.amount, 60, td.secrethash⟩⟩, none⟩,
     [RaidenEvent.OtherEvent 6]⟩,
   fun st _ _ _ _ => ⟨some st, []⟩⟩

/-- A sub-machine that finds no new route (and reports a failure event), as
`try_new_route` does when every route is exhausted. -/
def subNoRoute : InitiatorModule :=
  ⟨fun _ _ _ _ _ _ => ⟨none, [RaidenEvent.OtherEvent 9]⟩,
   fun st _ _ _ _ => ⟨some st, []⟩⟩

/-- A sub-machine whose per-attempt transition terminates every attempt with
one event. -/
def subDel : InitiatorModule :=
  ⟨fun _ _ _ _ _ _ => ⟨none, []⟩,
   fun _ _ _ _ _ => ⟨none, [RaidenEvent.OtherEvent 2]⟩⟩

/-- The pair of events `handle_cancelpayment` emits for one cancellable
attempt: its `UnlockFailed("route was canceled")` followed by the terminal
`PaymentSentFailed("user canceled payment")` built from the attempt's channel
state. -/
def cancelpayment_events_for (m : ChannelMap) (st : InitiatorTransferState) :
    List RaidenEvent :=
  match dictGet m st.channel_identifier with
  | none => []
  | some channel_state =>
    events_for_cancel_current_route st.transfer_description ++
      [RaidenEvent.EventPaymentSentFailed
        channel_state.payment_network_identifier
        channel_state.token_network_identifier
        st.transfer_description.payment_identifier
        st.transfer_description.target
        "user canceled payment"]

/-- The cancel loop, when every attempt's channel is present: keeps exactly
the post-reveal attempts, records the cancellable attempts' channels in
order, and emits the cancel event pair per cancellable attempt. -/
theorem cancelLoop_eq (m : ChannelMap)
    (l : List (Nat × InitiatorTransferState))
    (hch : ∀ e ∈ l, (dictGet m e.2.channel_identifier).isSome) :
    cancelLoop m l = Except.ok
      (l.filter (fun e => e.2.revealsecret.isSome),
       (l.filter (fun e => e.2.revealsecret.isNone)).map
         (fun e => e.2.channel_identifier),
       ((l.filter (fun e => e.2.revealsecret.isNone)).map
         (fun e => cancelpayment_events_for m e.2)).flatten) := by
  induction l with
  | nil => simp [cancelLoop]
  | cons head rest ih =>
    obtain ⟨k, st⟩ := head
    have hhead : (dictGet m st.channel_identifier).isSome :=
      hch _ (List.mem_cons_self _ _)
    obtain ⟨cs, hcs⟩ := Option.isSome_iff_exists.mp hhead
    have hrest := ih (fun e he => hch e (List.mem_cons_of_mem _ he))
    cases hrev : st.revealsecret with
    | none =>
      simp [cancelLoop, dictGetD, hcs, can_cancel, hrev, hrest,
        cancelpayment_events_for]
    | some sec =>
      simp [cancelLoop, dictGetD, hcs, can_cancel, hrev, hrest]

/-- Claim C1 (amended): when the refund matches the original attempt and
passes structural validation but the channel collaborator reports it invalid,
the transition returns the state unchanged with EMPTY effects — the channel's
own effects are dropped, not returned. -/
theorem C1_amended_channel_rejection (Ch : ChannelModule) (I : InitiatorModule)
    (H : Nat → Nat) (ps : InitiatorPaymentState)
    (sc : ReceiveTransferRefundCancelRoute) (m : ChannelMap) (prng bn : Nat)
    (st : InitiatorTransferState) (cs : NettingChannelState)
    (hst : dictGet ps.initiator_transfers sc.transfer.lock.secrethash = some st)
    (hcs : dictGet m st.channel_identifier = some cs)
    (h1 : sc.transfer.lock.secrethash = st.transfer.lock.secrethash)
    (h2 : sc.transfer.lock.amount = st.transfer.lock.amount)
    (h3 : sc.transfer.lock.expiration = st.transfer.lock.expiration)
    (hmatch : Ch.refund_transfer_matches_received sc.transfer st.transfer = true)
    (hinvalid :
      (Ch.handle_receive_refundtransfercancelroute cs sc.transfer).1 = false) :
    state_transition Ch I H (some ps)
        (StateChange.ReceiveTransferRefundCancelRoute sc) m prng bn =
      Except.ok (TransitionResult.mk (some ps) []) := by
  have hne : ps.initiator_transfers ≠ [] := dictGet_some_ne_nil hst
  have hlen : ¬ps.initiator_transfers.length = 0 :=
    fun hl => hne (List.length_eq_zero.mp hl)
  have hh : handle_transferrefundcancelroute Ch I H ps sc m prng bn =
      Except.ok (TransitionResult.mk (some ps) []) := by
    unfold handle_transferrefundcancelroute
    rw [hst]
    simp [dictGetD, hcs, h1, h2, h3, hmatch, hinvalid]
  unfold state_transition state_transition_unfinalized
  simp [hh, Except.map, clear_if_finalized, hlen]

/-- Counterexample to C1 as stated: the channel rejects the refund while
emitting `OtherEvent 7`, yet the handler returns no effects at all — the
channel's effects are dropped. -/
theorem C1_counterexample :
    handle_transferrefundcancelroute chanReject trivialSub id
        (InitiatorPaymentState.mk [(7, stA)] [])
        (ReceiveTransferRefundCancelRoute.mk transferA [] 9) mapAB 0 0 =
      Except.ok (TransitionResult.mk
        (some (InitiatorPaymentState.mk [(7, stA)] [])) []) ∧
    (chanReject.handle_receive_refundtransfercancelroute csA transferA).2.1 =
      [RaidenEvent.OtherEvent 7] :=
  ⟨rfl, rfl⟩

/-- Witness for the amended C1 at a concrete rejected refund. -/
theorem C1_witness :
    state_transition chanReject trivialSub id
        (some (InitiatorPaymentState.mk [(7, stA)] []))
        (StateChange.ReceiveTransferRefundCancelRoute
          (ReceiveTransferRefundCancelRoute.mk transferA [] 9)) mapAB 0 0 =
      Except.ok (TransitionResult.mk
        (some (InitiatorPaymentState.mk [(7, stA)] [])) []) :=
  C1_amended_channel_rejection chanReject trivialSub id _ _ mapAB 0 0 stA csA
    rfl rfl rfl rfl rfl rfl rfl

/-- Claim C4: `handle_transferrefundcancelroute` is a no-op — state unchanged
and no effects — when the refund's secrethash matches no attempt, or when the
refund lock differs from the matched attempt's sent lock on secrethash, amount
or expiration, or when `refund_transfer_matches_received` rejects it. -/
theorem C4_refund_noop (Ch : ChannelModule) (I : InitiatorModule)
    (H : Nat → Nat) (ps : InitiatorPaymentState)
    (sc : ReceiveTransferRefundCancelRoute) (m : ChannelMap) (prng bn : Nat)
    (h : dictGet ps.initiator_transfers sc.transfer.lock.secrethash = none ∨
      ∃ st cs,
        dictGet ps.initiator_transfers sc.transfer.lock.secrethash = some st ∧
        dictGet m st.channel_identifier = some cs ∧
        (¬(sc.transfer.lock.secrethash = st.transfer.lock.secrethash ∧
           sc.transfer.lock.amount = st.transfer.lock.amount ∧
           sc.transfer.lock.expiration = st.transfer.lock.expiration) ∨
         Ch.refund_transfer_matches_received sc.transfer st.transfer = false)) :
    handle_transferrefundcancelroute Ch I H ps sc m prng bn =
      Except.ok (TransitionResult.mk (some ps) []) := by
  rcases h with hnone | ⟨st, cs, hst, hcs, hbad⟩
  · unfold handle_transferrefundcancelroute
    rw [hnone]
  · unfold handle_transferrefundcancelroute
    rw [hst]
    simp only [dictGetD, hcs]
    rcases hbad with hlock | hrefund
    · have hl : ((sc.transfer.lock.secrethash == st.transfer.lock.secrethash) &&
          (sc.transfer.lock.amount == st.transfer.lock.amount) &&
          (sc.transfer.lock.expiration == st.transfer.lock.expiration)) =
            false := by
        cases hx : ((sc.transfer.lock.secrethash == st.transfer.lock.secrethash) &&
            (sc.transfer.lock.amount == st.transfer.lock.amount) &&
            (sc.transfer.lock.expiration == st.transfer.lock.expiration)) with
        | false => rfl
        | true =>
          exact absurd
            (by simpa [Bool.and_eq_true, beq_iff_eq, and_assoc] using hx) hlock
      simp [hl]
    · simp [hrefund]

/-- Witness for C4: a refund whose lock amount differs from the sent lock is
dropped without state change or effects. -/
theorem C4_witness :
    handle_transferrefundcancelroute trivialChannel trivialSub id
        (InitiatorPaymentState.mk [(7, stA)] [])
        (ReceiveTransferRefundCancelRoute.mk
          (LockedTransferState.mk 1 (HashTimeLockState.mk 999 50 7)) [] 9)
        mapAB 0 0 =
      Except.ok (TransitionResult.mk
        (some (InitiatorPaymentState.mk [(7, stA)] [])) []) :=
  C4_refund_noop trivialChannel trivialSub id _ _ mapAB 0 0
    (Or.inr ⟨stA, csA, rfl, rfl, Or.inl (by decide)⟩)

/-- Claim C8: for an accepted refund, the handler hands the retry
(`maybe_try_new_route`) a transfer description equal to the old attempt's
description with only the secret replaced by the one in the state change —
payment network, payment identifier, amount, token network, initiator and
target are all preserved — and returns its result with the channel's effects
prepended. -/
theorem C8_refund_retry_description (Ch : ChannelModule) (I : InitiatorModule)
    (H : Nat → Nat) (ps : InitiatorPaymentState)
    (sc : ReceiveTransferRefundCancelRoute) (m : ChannelMap) (prng bn : Nat)
    (st : InitiatorTransferState) (cs : NettingChannelState)
    (hst : dictGet ps.initiator_transfers sc.transfer.lock.secrethash = some st)
    (hcs : dictGet m st.channel_identifier = some cs)
    (h1 : sc.transfer.lock.secrethash = st.transfer.lock.secrethash)
    (h2 : sc.transfer.lock.amount = st.transfer.lock.amount)
    (h3 : sc.transfer.lock.expiration = st.transfer.lock.expiration)
    (hmatch : Ch.refund_transfer_matches_received sc.transfer st.transfer = true)
    (hvalid :
      (Ch.handle_receive_refundtransfercancelroute cs sc.transfer).1 = true) :
    handle_transferrefundcancelroute Ch I H ps sc m prng bn =
      Except.map
        (fun it => TransitionResult.mk it.new_state
          ((Ch.handle_receive_refundtransfercancelroute cs sc.transfer).2.1 ++
            it.events))
        (maybe_try_new_route I ps st
          (TransferDescriptionWithSecretState.mk
            st.transfer_description.payment_network_identifier
            st.transfer_description.payment_identifier
            st.transfer_description.amount
            st.transfer_description.token_network_identifier
            st.transfer_description.initiator
            st.transfer_description.target
            sc.secret (H sc.secret))
          sc.routes m prng bn) := by
  unfold handle_transferrefundcancelroute
  rw [hst]
  simp only [dictGetD, hcs, mkTransferDescription]
  simp only [h1, h2, h3, beq_self_eq_true, Bool.and_self, hmatch, hvalid,
    Bool.not_true, Bool.or_self, Bool.false_or, if_false]
  cases hres : maybe_try_new_route I ps st
      (TransferDescriptionWithSecretState.mk
        st.transfer_description.payment_network_identifier
        st.transfer_description.payment_identifier
        st.transfer_description.amount
        st.transfer_description.token_network_identifier
        st.transfer_description.initiator
        st.transfer_description.target
        sc.secret (H sc.secret))
      sc.routes m prng bn with
  | error e => simp [hres, Except.map]
  | ok it => simp [hres, Except.map]

/-- Witness for C8: the concrete retry description carries secret 9 and the
original identifiers of `descA`. -/
theorem C8_witness :
    handle_transferrefundcancelroute chanAcceptEv subNewRoute id
        (InitiatorPaymentState.mk [(7, stA)] [])
        (ReceiveTransferRefundCancelRoute.mk transferA [] 9) mapAB 0 0 =
      Except.map
        (fun it => TransitionResult.mk it.new_state
          ((chanAcceptEv.handle_receive_refundtransfercancelroute csA
            transferA).2.1 ++ it.events))
        (maybe_try_new_route subNewRoute (InitiatorPaymentState.mk [(7, stA)] [])
          stA (TransferDescriptionWithSecretState.mk 100 1 10 200 11 22 9 9)
          [] mapAB 0 0) :=
  C8_refund_retry_description chanAcceptEv subNewRoute id _ _ mapAB 0 0 stA csA
    rfl rfl rfl rfl rfl rfl rfl

/-- Claim C5: after every handler a finalization pass is applied — a present
result state whose `initiator_transfers` mapping is empty is retired to absent
while the handler's effects are kept, any other result is returned unchanged,
and every successful `state_transition` result has passed through exactly this
`clear_if_finalized` pass. -/
theorem C5_finalization_pass (it : TransitionResult) :
    (∀ ps, it.new_state = some ps → ps.initiator_transfers = [] →
      clear_if_finalized it = TransitionResult.mk none it.events) ∧
    ((∀ ps, it.new_state = some ps → ps.initiator_transfers ≠ []) →
      clear_if_finalized it = it) ∧
    (∀ Ch I H s e m prng bn r,
      state_transition Ch I H s e m prng bn = Except.ok r →
        r = clear_if_finalized r ∧
        ∀ ps, r.new_state = some ps → ps.initiator_transfers ≠ []) := by
  refine ⟨?_, clear_if_finalized_fixed it, ?_⟩
  · intro ps hps hempty
    obtain ⟨ns, evs⟩ := it
    cases ns with
    | none => simp at hps
    | some s =>
      simp at hps
      subst hps
      simp [clear_if_finalized, hempty]
  · intro Ch I H s e m prng bn r hr
    unfold state_transition at hr
    cases hu : state_transition_unfinalized Ch I H s e m prng bn with
    | error err => rw [hu] at hr; simp [Except.map] at hr
    | ok it0 =>
      rw [hu] at hr
      simp [Except.map] at hr
      subst hr
      exact ⟨(clear_if_finalized_fixed _ (clear_if_finalized_invariant it0)).symm,
        clear_if_finalized_invariant it0⟩

/-- Witness for C5: a present state with an empty mapping is retired while the
effects are kept. -/
theorem C5_witness :
    clear_if_finalized (TransitionResult.mk
        (some (InitiatorPaymentState.mk [] [3])) [RaidenEvent.OtherEvent 1]) =
      TransitionResult.mk none [RaidenEvent.OtherEvent 1] :=
  (C5_finalization_pass _).1 _ rfl rfl

/-- Claim C6: applying `ActionInitInitiator` to an already-present payment
state is a no-op — `handle_init` returns the state unchanged with empty
effects, and the full transition does the same for any present state with at
least one attempt. -/
theorem C6_init_idempotent (Ch : ChannelModule) (I : InitiatorModule)
    (H : Nat → Nat) (ps : InitiatorPaymentState) (d : ActionInitInitiator)
    (m : ChannelMap) (prng bn : Nat) :
    handle_init I (some ps) d m prng bn = TransitionResult.mk (some ps) [] ∧
    (ps.initiator_transfers ≠ [] →
      state_transition Ch I H (some ps) (StateChange.ActionInitInitiator d)
          m prng bn =
        Except.ok (TransitionResult.mk (some ps) [])) := by
  constructor
  · rfl
  · intro h
    have hlen : ¬ps.initiator_transfers.length = 0 :=
      fun hl => h (List.length_eq_zero.mp hl)
    simp [state_transition, state_transition_unfinalized, handle_init,
      Except.map, clear_if_finalized, hlen]

/-- Witness for C6 at a concrete one-attempt state. -/
theorem C6_witness :
    handle_init trivialSub (some (InitiatorPaymentState.mk [(7, stA)] []))
        (ActionInitInitiator.mk descA []) mapAB 0 0 =
      TransitionResult.mk (some (InitiatorPaymentState.mk [(7, stA)] [])) [] ∧
    state_transition trivialChannel trivialSub id
        (some (InitiatorPaymentState.mk [(7, stA)] []))
        (StateChange.ActionInitInitiator (ActionInitInitiator.mk descA []))
        mapAB 0 0 =
      Except.ok (TransitionResult.mk
        (some (InitiatorPaymentState.mk [(7, stA)] [])) []) :=
  ⟨(C6_init_idempotent trivialChannel trivialSub id _ _ mapAB 0 0).1,
   (C6_init_idempotent trivialChannel trivialSub id _ _ mapAB 0 0).2 (by simp)⟩

/-- Claim C7: `handle_lock_expired` — an unmatched secrethash is a no-op; for
a matched attempt the channel-level handler is applied and
`UnlockClaimFailed("Lock expired")` is appended if and only if the partner
lock table of the channel handler's returned state no longer holds a lock for
the attempt's secrethash. -/
theorem C7_lock_expired (Ch : ChannelModule) (ps : InitiatorPaymentState)
    (d : ReceiveLockExpired) (m : ChannelMap) (bn : Nat) :
    (dictGet ps.initiator_transfers d.secrethash = none →
      handle_lock_expired Ch ps d m bn =
        Except.ok (TransitionResult.mk (some ps) [])) ∧
    (∀ st cs, dictGet ps.initiator_transfers d.secrethash = some st →
      dictGet m st.channel_identifier = some cs →
      handle_lock_expired Ch ps d m bn =
        Except.ok (TransitionResult.mk (some ps)
          (if (Ch.get_lock
                (Ch.handle_receive_lock_expired cs d bn).new_state.partner_state
                st.transfer.lock.secrethash).isNone then
            (Ch.handle_receive_lock_expired cs d bn).events ++
              [RaidenEvent.EventUnlockClaimFailed st.transfer.payment_identifier
                st.transfer.lock.secrethash "Lock expired"]
          else
            (Ch.handle_receive_lock_expired cs d bn).events))) := by
  constructor
  · intro h
    unfold handle_lock_expired
    rw [h]
  · intro st cs hst hcs
    unfold handle_lock_expired
    rw [hst]
    simp only [dictGetD, hcs]
    cases hlk : Ch.get_lock
        (Ch.handle_receive_lock_expired cs d bn).new_state.partner_state
        st.transfer.lock.secrethash with
    | none => simp [hlk]
    | some lk => simp [hlk]

/-- Witness for C7: with the partner lock gone, the claim-failed event is
appended after the channel handler's events. -/
theorem C7_witness :
    handle_lock_expired chanLockGone (InitiatorPaymentState.mk [(7, stA)] [])
        (ReceiveLockExpired.mk 7) mapAB 0 =
      Except.ok (TransitionResult.mk
        (some (InitiatorPaymentState.mk [(7, stA)] []))
        (if (chanLockGone.get_lock
              (chanLockGone.handle_receive_lock_expired csA
                (ReceiveLockExpired.mk 7) 0).new_state.partner_state
              stA.transfer.lock.secrethash).isNone then
          (chanLockGone.handle_receive_lock_expired csA
            (ReceiveLockExpired.mk 7) 0).events ++
            [RaidenEvent.EventUnlockClaimFailed stA.transfer.payment_identifier
              stA.transfer.lock.secrethash "Lock expired"]
        else
          (chanLockGone.handle_receive_lock_expired csA
            (ReceiveLockExpired.mk 7) 0).events)) :=
  (C7_lock_expired chanLockGone _ _ mapAB 0).2 stA csA rfl rfl

/-- Claim C10: `handle_secretrequest` never adds or removes an attempt — on
success the key set of `initiator_transfers` is unchanged, even when the
per-attempt sub-machine returns absent state. -/
theorem C10_secretrequest_keyset (I : InitiatorModule)
    (ps : InitiatorPaymentState) (d : ReceiveSecretRequest) (m : ChannelMap)
    (prng bn : Nat) (r : TransitionResult)
    (hok : handle_secretrequest I ps d m prng bn = Except.ok r) :
    ∃ ps', r.new_state = some ps' ∧
      ps'.initiator_transfers.map Prod.fst =
        ps.initiator_transfers.map Prod.fst := by
  unfold handle_secretrequest at hok
  cases hget : dictGet ps.initiator_transfers d.secrethash with
  | none =>
    rw [hget] at hok
    simp at hok
    subst hok
    exact ⟨ps, rfl, rfl⟩
  | some st =>
    rw [hget] at hok
    unfold subdispatch_to_initiatortransfer at hok
    cases hch : dictGet m st.channel_identifier with
    | none => simp [dictGetD, hch] at hok
    | some cs =>
      simp only [dictGetD, hch] at hok
      cases hsub : (I.state_transition st (StateChange.ReceiveSecretRequest d)
          cs prng bn).new_state with
      | none =>
        rw [hsub] at hok
        simp at hok
        subst hok
        exact ⟨ps, rfl, rfl⟩
      | some new_st =>
        rw [hsub] at hok
        simp at hok
        subst hok
        exact ⟨_, rfl, dictSet_map_fst _ _ st new_st hget⟩

/-- Witness for C10: the sub-machine terminates the attempt, yet the key set
is unchanged. -/
theorem C10_witness :
    ∃ ps', (TransitionResult.mk (some (InitiatorPaymentState.mk [(7, stA)] []))
        [RaidenEvent.OtherEvent 3]).new_state = some ps' ∧
      ps'.initiator_transfers.map Prod.fst =
        (InitiatorPaymentState.mk [(7, stA)] []).initiator_transfers.map
          Prod.fst :=
  C10_secretrequest_keyset subToNone _ (ReceiveSecretRequest.mk 7) mapAB 0 0 _
    rfl

/-- Claim C2 fails on the code: `state_transition` raises.  First conjunct: a
valid refund for a cancellable attempt whose `try_new_route` finds no
alternate route hits `assert sub_iteration.new_state` in
`maybe_try_new_route`.  Second conjunct: a secret request for an attempt whose
`channel_identifier` (99) is absent from the channel map hits the raising
lookup in `subdispatch_to_initiatortransfer`. -/
theorem C2_code_raises :
    state_transition trivialChannel subNoRoute id
        (some (InitiatorPaymentState.mk [(7, stA)] []))
        (StateChange.ReceiveTransferRefundCancelRoute
          (ReceiveTransferRefundCancelRoute.mk transferA [] 9)) mapAB 0 0 =
      Except.error (RaidenError.assertionError "sub_iteration.new_state") ∧
    state_transition trivialChannel trivialSub id
        (some (InitiatorPaymentState.mk [(7, stOrphan)] []))
        (StateChange.ReceiveSecretRequest (ReceiveSecretRequest.mk 7))
        mapAB 0 0 =
      Except.error (RaidenError.keyError 99) :=
  ⟨rfl, rfl⟩

/-- Claim C3: `handle_cancelpayment` removes every attempt whose
`revealsecret` is absent, appends its channel to `cancelled_channels` (in
iteration order), emits `UnlockFailed("route was canceled")` followed by
`PaymentSentFailed("user canceled payment")` for it, and leaves every attempt
whose `revealsecret` is present in the mapping unchanged. -/
theorem C3_cancelpayment (ps : InitiatorPaymentState) (m : ChannelMap)
    (hch : ∀ e ∈ ps.initiator_transfers,
      (dictGet m e.2.channel_identifier).isSome) :
    handle_cancelpayment ps m = Except.ok (TransitionResult.mk
      (some (InitiatorPaymentState.mk
        (ps.initiator_transfers.filter (fun e => e.2.revealsecret.isSome))
        (ps.cancelled_channels ++
          (ps.initiator_transfers.filter
            (fun e => e.2.revealsecret.isNone)).map
              (fun e => e.2.channel_identifier))))
      ((ps.initiator_transfers.filter (fun e => e.2.revealsecret.isNone)).map
        (fun e => cancelpayment_events_for m e.2)).flatten) := by
  unfold handle_cancelpayment
  rw [cancelLoop_eq m ps.initiator_transfers hch]

/-- Witness for C3: the cancellable attempt `stA` is cancelled, the
post-reveal attempt `stB` survives. -/
theorem C3_witness :
    handle_cancelpayment (InitiatorPaymentState.mk [(7, stA), (8, stB)] [5])
        mapAB =
      Except.ok (TransitionResult.mk
        (some (InitiatorPaymentState.mk
          (([(7, stA), (8, stB)] : List (Nat × InitiatorTransferState)).filter
            (fun e => e.2.revealsecret.isSome))
          ([5] ++ (([(7, stA), (8, stB)] :
              List (Nat × InitiatorTransferState)).filter
            (fun e => e.2.revealsecret.isNone)).map
              (fun e => e.2.channel_identifier))))
        ((([(7, stA), (8, stB)] : List (Nat × InitiatorTransferState)).filter
          (fun e => e.2.revealsecret.isNone)).map
            (fun e => cancelpayment_events_for mapAB e.2)).flatten) :=
  C3_cancelpayment _ mapAB (by decide)

/-- Claim C9: a broadcast dispatch skips every attempt whose channel
identifier is absent from the channel map — the attempt stays in
`initiator_transfers` unchanged, in place, and contributes no effects. -/
theorem C9_missing_channel_skipped (I : InitiatorModule) (sc : StateChange)
    (m : ChannelMap) (prng bn : Nat) (ps : InitiatorPaymentState)
    (l₁ l₂ : List (Nat × InitiatorTransferState)) (k : Nat)
    (st : InitiatorTransferState)
    (hsplit : ps.initiator_transfers = l₁ ++ (k, st) :: l₂)
    (hch : dictGet m st.channel_identifier = none) :
    subdispatch_to_all_initiatortransfer I ps sc m prng bn =
      TransitionResult.mk
        (some (InitiatorPaymentState.mk
          ((subdispatchAll I sc m prng bn l₁).1 ++
            (k, st) :: (subdispatchAll I sc m prng bn l₂).1)
          ps.cancelled_channels))
        ((subdispatchAll I sc m prng bn l₁).2 ++
          (subdispatchAll I sc m prng bn l₂).2) := by
  unfold subdispatch_to_all_initiatortransfer
  rw [hsplit, subdispatchAll_append]
  simp [subdispatchAll, hch]

/-- Witness for C9: the orphaned attempt (channel 99, absent) survives a
`Block` broadcast in place and adds no effects, while the attempt with a
present channel is dispatched (and here deleted). -/
theorem C9_witness :
    subdispatch_to_all_initiatortransfer subDel
        (InitiatorPaymentState.mk [(7, stOrphan), (8, stB)] [])
        (StateChange.Block 5) [(2, csB)] 0 0 =
      TransitionResult.mk
        (some (InitiatorPaymentState.mk
          ((subdispatchAll subDel (StateChange.Block 5) [(2, csB)] 0 0 []).1 ++
            (7, stOrphan) ::
              (subdispatchAll subDel (StateChange.Block 5) [(2, csB)] 0 0
                [(8, stB)]).1)
          []))
        ((subdispatchAll subDel (StateChange.Block 5) [(2, csB)] 0 0 []).2 ++
          (subdispatchAll subDel (StateChange.Block 5) [(2, csB)] 0 0
            [(8, stB)]).2) :=
  C9_missing_channel_skipped subDel _ _ 0 0 _ [] [(8, stB)] 7 stOrphan rfl rfl

end Raiden
